import Mathlib

/-!
Verification of the water-height measurement station
(`src/main.cpp` of sphrilix/WaterHeigthMessurement).

The station's decision logic is embedded shallowly: global mutable flags
become an explicit `State`, one iteration of the Arduino `loop` becomes a
pure step function `loopStep : State → Input → State × Output`, and the
side effects of one cycle (SMS dispatches, telemetry uploads, emitted
message codes) are collected in `Output`.  Millisecond timestamps and
sensor values are embedded as `Int`; the DS18B20 "disconnected" sentinel
`DEVICE_DISCONNECTED_C` is the constant `-127` (only equality with the
sentinel is ever inspected by the code).  The infinite `while (1);` halt
loops are embedded as an absorbing `halted` flag.
-/

namespace WaterStation

/-- First critical point, `CRIT_DIST_1` in the source (20 cm under the footbridge). -/
def CRIT_DIST_1 : Int := 322

/-- Second critical point, `CRIT_DIST_2` in the source (10 cm under the footbridge). -/
def CRIT_DIST_2 : Int := 332

/-- Third critical point, `CRIT_DIST_3` in the source (water entering the hut). -/
def CRIT_DIST_3 : Int := 342

/-- Number of SMS recipients, `SIZE_OF_ALLOWED_NUMBERS` in the source. -/
def SIZE_OF_ALLOWED_NUMBERS : Nat := 4

/-- Maximum measurable distance, `MAX_DIST` in the source. -/
def MAX_DIST : Int := 400

/-- Minimum measurable distance, `MIN_DIST` in the source. -/
def MIN_DIST : Int := 0

/-- Fault-escalation interval in ms, `INTERVAL` in the source. -/
def INTERVAL : Int := 1200000

/-- Distance from the sensor to the deepest point of the lake, `DIST_OVER_NULL`. -/
def DIST_OVER_NULL : Int := 402

/-- Sentinel returned by the DallasTemperature library when the probe is
disconnected (`DEVICE_DISCONNECTED_C`, -127 °C). -/
def DEVICE_DISCONNECTED_C : Int := -127

/-- The fixed contact list, `allowedNumbers` in the source. -/
def allowedNumbers : List String :=
  ["+4915142437055", "+4915224760882", "+491711707191", "+491606488035"]

/-- Embeds `createMessage` of the source: maps an internal message code to
the human-readable template string. -/
def createMessage (code : Int) : String :=
  if code < 0 ∨ code > 8 then "Invalid ErrorCode"
  else if code = 0 then "Wasserstand: cm"
  else if code = 1 then "Meldestufe 1 erreicht!!!"
  else if code = 2 then "Meldestufe 2 erreicht!!!"
  else if code = 3 then "Wir saufen ab!!! Meldestufe 3 erreicht!!!"
  else if code = 4 then "Meldestufe 1 aufgehoben!!!"
  else if code = 5 then "Meldestufe 2 aufgehoben!!!"
  else if code = 6 then "Meldestufe 3 aufgehoben!!!"
  else if code = 7 then "Sensoren liefern falsche Werte! Bitte ueberpruefen!"
  else "Fehler mit dem RTC-Modul bitte ueberpruefen!"

/-- Embeds `sendingSMS` of the source: one outbound SMS, recorded as the
pair (recipient number, rendered message body). -/
def sendingSMS (number : String) (messageCode : Int) : List (String × String) :=
  [(number, createMessage messageCode)]

/-- Embeds `warnAll` of the source: dispatches the SMS for `messageCode` to
`allowedNumbers[i]` for `i = 0, …, SIZE_OF_ALLOWED_NUMBERS - 1`, in order. -/
def warnAll (messageCode : Int) : List (String × String) :=
  (List.range SIZE_OF_ALLOWED_NUMBERS).flatMap
    (fun i => sendingSMS (allowedNumbers.getD i "") messageCode)

/-- Embeds `calcWaterHeigth` of the source: water level from raw distance. -/
def calcWaterHeigth (rawMessuredHeight : Int) : Int :=
  DIST_OVER_NULL - rawMessuredHeight

/-- Result of one run of the threshold check: the three warning flags after
the call, plus the message code of the branch that fired (`none` for the
final no-op branch). -/
structure CheckResult where
  w1 : Bool
  w2 : Bool
  w3 : Bool
  emitted : Option Int
  deriving Repr, DecidableEq

/-- Embeds `checkWaterHeight` of the source: the six-branch if/else-chain
over (`messuredHeigth`, `warning1Sent`, `warning2Sent`, `warning3Sent`).
Enter branches are evaluated T3, T2, T1, then clear branches T3, T2, T1;
the branch that fires emits its message code and flips its flag. -/
def checkWaterHeight (messuredHeigth : Int) (w1 w2 w3 : Bool) : CheckResult :=
  if messuredHeigth ≥ CRIT_DIST_3 ∧ w3 = false then ⟨w1, w2, true, some 3⟩
  else if messuredHeigth ≥ CRIT_DIST_2 ∧ w2 = false then ⟨w1, true, w3, some 2⟩
  else if messuredHeigth ≥ CRIT_DIST_1 ∧ w1 = false then ⟨true, w2, w3, some 1⟩
  else if messuredHeigth < CRIT_DIST_3 ∧ w3 = true then ⟨w1, w2, false, some 6⟩
  else if messuredHeigth < CRIT_DIST_2 ∧ w2 = true then ⟨w1, false, w3, some 5⟩
  else if messuredHeigth < CRIT_DIST_1 ∧ w1 = true then ⟨false, w2, w3, some 4⟩
  else ⟨w1, w2, w3, none⟩

/-- Side effects of one run of `checkWaterHeight`: every firing branch of
the source calls `warnAll code` (one broadcast) and `sendDataToServer`
(one upload); the no-op branch does neither. -/
structure CheckEffects where
  smss : List (String × String)
  broadcasts : Nat
  uploads : Nat
  deriving Repr, DecidableEq

/-- The effects produced by `checkWaterHeight`, read off its firing branch. -/
def checkEffects (messuredHeigth : Int) (w1 w2 w3 : Bool) : CheckEffects :=
  match (checkWaterHeight messuredHeigth w1 w2 w3).emitted with
  | some c => ⟨warnAll c, 1, 1⟩
  | none => ⟨[], 0, 0⟩

/-- Embeds the validity check of `loop` (line 368): a cycle is valid iff the
averaged distance lies strictly between `MIN_DIST` and `MAX_DIST` and the
temperature probe did not return the disconnected sentinel. -/
def validReading (rawMessuredHeight rawWaterTemp : Int) : Bool :=
  decide (rawMessuredHeight > MIN_DIST) && decide (rawMessuredHeight < MAX_DIST)
    && decide (rawWaterTemp ≠ DEVICE_DISCONNECTED_C)

/-- The global mutable state that one iteration of `loop` reads and writes:
the three warning flags, the periodic-upload flag `dataSent`, the failure
flag `messureFail`, the timestamp `previousMillis` of the last valid
measurement, and an absorbing `halted` flag embedding `while (1);`. -/
structure State where
  w1 : Bool
  w2 : Bool
  w3 : Bool
  dataSent : Bool
  messureFail : Bool
  previousMillis : Int
  halted : Bool
  deriving Repr, DecidableEq

/-- The state at station start: all flags false, `previousMillis = 0`. -/
def initialState : State :=
  ⟨false, false, false, false, false, 0, false⟩

/-- The environment values one iteration of `loop` samples: the averaged
raw distance, the raw temperature, `millis()`, and the RTC minute-of-hour. -/
structure Input where
  raw : Int
  temp : Int
  currentMillis : Int
  minute : Nat
  deriving Repr, DecidableEq

/-- The observable effects of one iteration of `loop`: the SMS dispatches,
the number of `warnAll` broadcasts, the number of `sendDataToServer`
uploads, the threshold/fault message code emitted (if any), and whether
this iteration entered the halt loop. -/
structure Output where
  smss : List (String × String)
  broadcasts : Nat
  uploads : Nat
  emitted : Option Int
  halt : Bool
  deriving Repr, DecidableEq

/-- Embeds the periodic-upload scheduler of `loop` (lines 375-381): upload
when the RTC minute is even and `dataSent` is not yet set; reset `dataSent`
when the minute is odd.  Returns (upload performed?, new `dataSent`). -/
def maybeUpload (minute : Nat) (dataSent : Bool) : Bool × Bool :=
  if minute % 2 = 0 ∧ dataSent = false then (true, true)
  else if minute % 2 ≠ 0 then (false, false)
  else (false, dataSent)

/-- Embeds one iteration of `loop` of the source as a pure step function.
When halted the station does nothing.  On a valid reading it clears the
failure flag, records `previousMillis`, runs `checkWaterHeight` and the
periodic-upload scheduler.  On an invalid reading it either escalates
(fault SMS to the first contact, then halt) when the failure flag is
already set and `INTERVAL` ms have passed since the last valid reading,
or just sets the failure flag. -/
def loopStep (s : State) (inp : Input) : State × Output :=
  if s.halted then (s, ⟨[], 0, 0, none, true⟩)
  else if validReading inp.raw inp.temp then
    let messuredHeigth := calcWaterHeigth inp.raw
    let r := checkWaterHeight messuredHeigth s.w1 s.w2 s.w3
    let eff := checkEffects messuredHeigth s.w1 s.w2 s.w3
    let up := maybeUpload inp.minute s.dataSent
    ({ w1 := r.w1, w2 := r.w2, w3 := r.w3,
       dataSent := up.2,
       messureFail := false,
       previousMillis := inp.currentMillis,
       halted := false },
     ⟨eff.smss, eff.broadcasts, eff.uploads + (if up.1 then 1 else 0),
      r.emitted, false⟩)
  else if inp.currentMillis - s.previousMillis ≥ INTERVAL ∧ s.messureFail = true then
    ({ s with halted := true },
     ⟨sendingSMS (allowedNumbers.getD 0 "") 7, 0, 0, some 7, true⟩)
  else
    ({ s with messureFail := true }, ⟨[], 0, 0, none, false⟩)

/-- The list of per-cycle outputs of a run of `loop` over a list of inputs. -/
def runOutputs (s : State) : List Input → List Output
  | [] => []
  | inp :: rest => (loopStep s inp).2 :: runOutputs (loopStep s inp).1 rest

/-- The state after a run of `loop` over a list of inputs. -/
def runState (s : State) : List Input → State
  | [] => s
  | inp :: rest => runState (loopStep s inp).1 rest

/-- Whether an output carries the one-shot sensor-fault escalation (SMS
with message code 7 followed by the halt loop). -/
def faultFired (o : Output) : Bool :=
  decide (o.emitted = some 7)

/-- Number of sensor-fault escalations in a list of outputs. -/
def faultCount (outs : List Output) : Nat :=
  (outs.filter faultFired).length

/-- Total number of `sendDataToServer` uploads in a list of outputs. -/
def uploadTotal (outs : List Output) : Nat :=
  (outs.map Output.uploads).sum

/-- Embeds the RTC-failure path of `setup` (lines 336-339): when
`rtc.begin()` fails, send the SMS with message code 8 to the first
contact and halt; otherwise send nothing. -/
def setupSms (rtcOk : Bool) : List (String × String) :=
  if rtcOk then [] else sendingSMS (allowedNumbers.getD 0 "") 8

/-- Number of warning flags that differ between the pre-state and the
result of a threshold check. -/
def changedCount (w1 w2 w3 : Bool) (r : CheckResult) : Nat :=
  (if r.w1 = w1 then 0 else 1) + (if r.w2 = w2 then 0 else 1)
    + (if r.w3 = w3 then 0 else 1)

/-- C1: one call of `checkWaterHeight` performs at most one transition.  It
flips at most one warning flag, the no-op branch changes nothing, and the
emitted message code (at most one, since `emitted` is an `Option`) is
exactly the one of the first satisfied condition of the priority chain:
enter conditions in the order T3, T2, T1, then clear conditions in the
order T3, T2, T1. -/
theorem checkWaterHeight_priority_chain (lvl : Int) (w1 w2 w3 : Bool) :
    changedCount w1 w2 w3 (checkWaterHeight lvl w1 w2 w3) ≤ 1
    ∧ ((checkWaterHeight lvl w1 w2 w3).emitted = none →
        checkWaterHeight lvl w1 w2 w3 = ⟨w1, w2, w3, none⟩)
    ∧ ((checkWaterHeight lvl w1 w2 w3).emitted = some 3 ↔
        lvl ≥ CRIT_DIST_3 ∧ w3 = false)
    ∧ ((checkWaterHeight lvl w1 w2 w3).emitted = some 2 ↔
        ¬(lvl ≥ CRIT_DIST_3 ∧ w3 = false) ∧ lvl ≥ CRIT_DIST_2 ∧ w2 = false)
    ∧ ((checkWaterHeight lvl w1 w2 w3).emitted = some 1 ↔
        ¬(lvl ≥ CRIT_DIST_3 ∧ w3 = false) ∧ ¬(lvl ≥ CRIT_DIST_2 ∧ w2 = false)
          ∧ lvl ≥ CRIT_DIST_1 ∧ w1 = false)
    ∧ ((checkWaterHeight lvl w1 w2 w3).emitted = some 6 ↔
        ¬(lvl ≥ CRIT_DIST_3 ∧ w3 = false) ∧ ¬(lvl ≥ CRIT_DIST_2 ∧ w2 = false)
          ∧ ¬(lvl ≥ CRIT_DIST_1 ∧ w1 = false) ∧ lvl < CRIT_DIST_3 ∧ w3 = true)
    ∧ ((checkWaterHeight lvl w1 w2 w3).emitted = some 5 ↔
        ¬(lvl ≥ CRIT_DIST_3 ∧ w3 = false) ∧ ¬(lvl ≥ CRIT_DIST_2 ∧ w2 = false)
          ∧ ¬(lvl ≥ CRIT_DIST_1 ∧ w1 = false) ∧ ¬(lvl < CRIT_DIST_3 ∧ w3 = true)
          ∧ lvl < CRIT_DIST_2 ∧ w2 = true)
    ∧ ((checkWaterHeight lvl w1 w2 w3).emitted = some 4 ↔
        ¬(lvl ≥ CRIT_DIST_3 ∧ w3 = false) ∧ ¬(lvl ≥ CRIT_DIST_2 ∧ w2 = false)
          ∧ ¬(lvl ≥ CRIT_DIST_1 ∧ w1 = false) ∧ ¬(lvl < CRIT_DIST_3 ∧ w3 = true)
          ∧ ¬(lvl < CRIT_DIST_2 ∧ w2 = true) ∧ lvl < CRIT_DIST_1 ∧ w1 = true) := by
  unfold checkWaterHeight changedCount
  split_ifs with h1 h2 h3 h4 h5 h6 <;> simp_all

/-- C1, instantiated: at level 350 with all flags cleared the chain fires
the T3 enter branch, flips only the T3 flag, and emits code 3. -/
theorem checkWaterHeight_priority_chain_inst :
    changedCount false false false (checkWaterHeight 350 false false false) ≤ 1
    ∧ (checkWaterHeight 350 false false false).emitted = some 3 :=
  ⟨(checkWaterHeight_priority_chain 350 false false false).1,
   (checkWaterHeight_priority_chain 350 false false false).2.2.1.mpr
     (by constructor <;> decide)⟩

/-- C3: `checkWaterHeight` emits a clear code (4, 5, 6) only when the
matching warning flag is currently set, and it then clears exactly that
flag; symmetrically an alert code (1, 2, 3) is emitted only when the
matching flag is currently cleared, and it then sets that flag.  Since
this holds for every state, it holds along every run from the initial
state (all flags cleared): an alert state toggles only through its
matching enter/clear pair and never goes from cleared directly to the
clear message code. -/
theorem checkWaterHeight_clear_only_when_active (lvl : Int) (w1 w2 w3 : Bool) :
    ((checkWaterHeight lvl w1 w2 w3).emitted = some 4 →
      w1 = true ∧ (checkWaterHeight lvl w1 w2 w3).w1 = false)
    ∧ ((checkWaterHeight lvl w1 w2 w3).emitted = some 5 →
      w2 = true ∧ (checkWaterHeight lvl w1 w2 w3).w2 = false)
    ∧ ((checkWaterHeight lvl w1 w2 w3).emitted = some 6 →
      w3 = true ∧ (checkWaterHeight lvl w1 w2 w3).w3 = false)
    ∧ ((checkWaterHeight lvl w1 w2 w3).emitted = some 1 →
      w1 = false ∧ (checkWaterHeight lvl w1 w2 w3).w1 = true)
    ∧ ((checkWaterHeight lvl w1 w2 w3).emitted = some 2 →
      w2 = false ∧ (checkWaterHeight lvl w1 w2 w3).w2 = true)
    ∧ ((checkWaterHeight lvl w1 w2 w3).emitted = some 3 →
      w3 = false ∧ (checkWaterHeight lvl w1 w2 w3).w3 = true) := by
  unfold checkWaterHeight
  split_ifs with h1 h2 h3 h4 h5 h6 <;> simp_all

/-- C3, instantiated: at level 300 with only the T3 flag set the chain
emits the clear code 6 from an active T3 flag and clears it. -/
theorem checkWaterHeight_clear_only_when_active_inst :
    true = true ∧ (checkWaterHeight 300 false false true).w3 = false :=
  (checkWaterHeight_clear_only_when_active 300 false false true).2.2.1 (by decide)

/-- C4: when the level has reached T1 but neither T2 nor T3 and the T1
flag is cleared, the chain fires the T1 enter branch: it emits exactly
`Alert1` (code 1), sets the T1 flag, leaves the other flags untouched,
and its effects are exactly one `warnAll` broadcast (one SMS per contact)
and exactly one `sendDataToServer` upload, bundled with the transition
independent of the periodic schedule (the effects take no clock input). -/
theorem checkWaterHeight_enter1 (lvl : Int) (w2 w3 : Bool)
    (hlo : CRIT_DIST_1 ≤ lvl) (hhi : lvl < CRIT_DIST_2) :
    checkWaterHeight lvl false w2 w3 = ⟨true, w2, w3, some 1⟩
    ∧ checkEffects lvl false w2 w3 = ⟨warnAll 1, 1, 1⟩
    ∧ (warnAll 1).length = allowedNumbers.length := by
  have hcheck : checkWaterHeight lvl false w2 w3 = ⟨true, w2, w3, some 1⟩ := by
    unfold checkWaterHeight
    unfold CRIT_DIST_1 CRIT_DIST_2 CRIT_DIST_3 at *
    split_ifs with h1 h2 h3 <;> simp_all <;> omega
  refine ⟨hcheck, ?_, by decide⟩
  unfold checkEffects
  rw [hcheck]

/-- C4, instantiated at level 325 (between T1 = 322 and T2 = 332) with all
flags cleared. -/
theorem checkWaterHeight_enter1_inst :
    checkWaterHeight 325 false false false = ⟨true, false, false, some 1⟩
    ∧ checkEffects 325 false false false = ⟨warnAll 1, 1, 1⟩
    ∧ (warnAll 1).length = allowedNumbers.length :=
  checkWaterHeight_enter1 325 false false (by decide) (by decide)

/-- C9: for every message code, `warnAll` dispatches exactly one SMS per
entry of the fixed contact list, in list order, each carrying the rendered
template text for that code. -/
theorem warnAll_one_sms_per_contact (messageCode : Int) :
    (warnAll messageCode).length = allowedNumbers.length
    ∧ ∀ i, i < allowedNumbers.length →
        (warnAll messageCode).getD i ("", "") =
          (allowedNumbers.getD i "", createMessage messageCode) := by
  constructor
  · rfl
  · intro i hi
    have hi4 : i < 4 := hi
    interval_cases i <;> rfl

/-- C9, instantiated: the first SMS of the broadcast for code 1 goes to the
first contact with the `Meldestufe 1` template. -/
theorem warnAll_one_sms_per_contact_inst :
    (warnAll 1).getD 0 ("", "") = (allowedNumbers.getD 0 "", createMessage 1) :=
  (warnAll_one_sms_per_contact 1).2 0 (by decide)

/-- C10: both fatal faults send their one-shot SMS only to the first entry
of the contact list, not as a broadcast: the sensor-fault escalation of
`loop` sends exactly one SMS, with code 7, to `allowedNumbers[0]`, performs
no `warnAll` broadcast, and halts; the RTC-failure path of `setup` sends
exactly one SMS, with code 8, to `allowedNumbers[0]`. -/
theorem fatal_sms_first_contact_only (s : State) (inp : Input)
    (hna : s.halted = false)
    (hv : validReading inp.raw inp.temp = false)
    (hel : inp.currentMillis - s.previousMillis ≥ INTERVAL)
    (hmf : s.messureFail = true) :
    (loopStep s inp).2.smss = [(allowedNumbers.getD 0 "", createMessage 7)]
    ∧ (loopStep s inp).2.smss.length = 1
    ∧ (loopStep s inp).2.broadcasts = 0
    ∧ (loopStep s inp).1.halted = true
    ∧ setupSms false = [(allowedNumbers.getD 0 "", createMessage 8)]
    ∧ (setupSms false).length = 1 := by
  unfold loopStep
  simp [hna, hv, hel, hmf, sendingSMS, setupSms]

/-- C10, instantiated: with the failure flag set, an invalid reading at
millis 1200000 after a last valid reading at millis 0 sends the fault SMS
to the first contact only. -/
theorem fatal_sms_first_contact_only_inst :
    (loopStep { initialState with messureFail := true }
        ⟨0, 0, 1200000, 1⟩).2.smss
      = [(allowedNumbers.getD 0 "", createMessage 7)] :=
  (fatal_sms_first_contact_only { initialState with messureFail := true }
    ⟨0, 0, 1200000, 1⟩ (by decide) (by decide) (by decide) (by decide)).1

/-- Modelled from the claim's words, for comparison with the code's
validity check: a distance reading is invalid exactly when its value lies
outside the closed range `[MIN_DIST, MAX_DIST]`. -/
def specDistInvalidClosed (raw : Int) : Bool :=
  decide (raw < MIN_DIST) || decide (raw > MAX_DIST)

/-- C7 counterexample: the boundary value `raw = MAX_DIST = 400` lies
inside the closed range `[MIN_DIST, MAX_DIST]`, so the claim classifies it
valid, but the code's check (strict inequalities, line 368) classifies the
cycle invalid even with a connected temperature probe. -/
theorem validReading_closed_range_counterexample :
    specDistInvalidClosed 400 = false
    ∧ validReading 400 0 = false
    ∧ (0 : Int) ≠ DEVICE_DISCONNECTED_C := by decide

/-- C7 amended: a cycle is classified valid exactly when the distance lies
strictly inside the open range `(MIN_DIST, MAX_DIST)` and the temperature
differs from the disconnected sentinel; so the distance is invalid exactly
when it lies outside the open range, boundary values included, and the
temperature is invalid exactly when it equals the sentinel. -/
theorem validReading_open_range (raw temp : Int) :
    validReading raw temp = true ↔
      (MIN_DIST < raw ∧ raw < MAX_DIST ∧ temp ≠ DEVICE_DISCONNECTED_C) := by
  simp [validReading]
  tauto

/-- C7 amended, instantiated: raw 100 with temperature 0 is valid. -/
theorem validReading_open_range_inst : validReading 100 0 = true :=
  (validReading_open_range 100 0).mpr (by decide)

/-- The upload time bucket of the spec (§3): `bucket = clockMinute / period`;
the code's even-minute gate corresponds to period 2. -/
def bucket (minute : Nat) : Nat := minute / 2

/-- Number of uploads performed by repeated calls of the scheduler over a
sequence of observed clock minutes, threading the `dataSent` flag. -/
def uploadRun (dataSent : Bool) : List Nat → Nat
  | [] => 0
  | m :: rest =>
      (if (maybeUpload m dataSent).1 then 1 else 0)
        + uploadRun (maybeUpload m dataSent).2 rest

lemma maybeUpload_fire_iff (m : Nat) (ds : Bool) :
    (maybeUpload m ds).1 = true ↔ m % 2 = 0 ∧ ds = false := by
  unfold maybeUpload
  split_ifs with h1 h2 <;> simp_all

lemma maybeUpload_fire_sets (m : Nat) (ds : Bool)
    (h : (maybeUpload m ds).1 = true) : (maybeUpload m ds).2 = true := by
  unfold maybeUpload at *
  split_ifs at h ⊢
  rfl

lemma maybeUpload_odd (m : Nat) (ds : Bool) (h : m % 2 = 1) :
    maybeUpload m ds = (false, false) := by
  unfold maybeUpload
  split_ifs <;> simp_all

lemma maybeUpload_even_sent (m : Nat) (h : m % 2 = 0) :
    maybeUpload m true = (false, true) := by
  unfold maybeUpload
  split_ifs <;> simp_all

lemma uploadRun_all_odd (ms : List Nat) (ds : Bool)
    (h : ∀ m ∈ ms, m % 2 = 1) : uploadRun ds ms = 0 := by
  induction ms generalizing ds with
  | nil => rfl
  | cons m rest ih =>
      have hm : m % 2 = 1 := h m (List.mem_cons_self m rest)
      simp [uploadRun, maybeUpload_odd m ds hm]
      exact ih false (fun x hx => h x (List.mem_cons_of_mem m hx))

lemma uploadRun_sent_in_bucket (b : Nat) (ms : List Nat)
    (hsort : List.Sorted (· ≤ ·) ms) (hbs : ∀ x ∈ ms, bucket x = b) :
    uploadRun true ms = 0 := by
  induction ms with
  | nil => rfl
  | cons m rest ih =>
      rw [List.sorted_cons] at hsort
      obtain ⟨hle, hsort'⟩ := hsort
      have hbm : m / 2 = b := hbs m (List.mem_cons_self m rest)
      rcases Nat.even_or_odd m with he | ho
      · have hm : m % 2 = 0 := Nat.even_iff.mp he
        simp [uploadRun, maybeUpload_even_sent m hm]
        exact ih hsort' (fun x hx => hbs x (List.mem_cons_of_mem m hx))
      · have hm : m % 2 = 1 := Nat.odd_iff.mp ho
        simp [uploadRun, maybeUpload_odd m true hm]
        refine uploadRun_all_odd rest false (fun x hx => ?_)
        have hxb : x / 2 = b := hbs x (List.mem_cons_of_mem m hx)
        have hxge : m ≤ x := hle x hx
        omega

lemma uploadRun_le_one (b : Nat) (ms : List Nat) (ds : Bool)
    (hsort : List.Sorted (· ≤ ·) ms) (hbs : ∀ x ∈ ms, bucket x = b) :
    uploadRun ds ms ≤ 1 := by
  induction ms generalizing ds with
  | nil => simp [uploadRun]
  | cons m rest ih =>
      rw [List.sorted_cons] at hsort
      obtain ⟨hle, hsort'⟩ := hsort
      have hbs' : ∀ x ∈ rest, bucket x = b :=
        fun x hx => hbs x (List.mem_cons_of_mem m hx)
      rcases hfire : (maybeUpload m ds).1 with _ | _
      · simp [uploadRun, hfire]
        exact ih (maybeUpload m ds).2 hsort' hbs'
      · have hset := maybeUpload_fire_sets m ds hfire
        simp [uploadRun, hfire, hset]
        exact uploadRun_sent_in_bucket b rest hsort' hbs'

/-- C5 counterexample: after the upload at minute 10 (bucket 5), a clock
jump straight to minute 12 (bucket 6) leaves the sent flag set and
performs no upload — the flag is not reset as soon as the clock leaves
the bucket, and the fresh bucket's upload is skipped. -/
theorem maybeUpload_no_reset_on_bucket_change :
    maybeUpload 10 false = (true, true)
    ∧ bucket 12 ≠ bucket 10
    ∧ maybeUpload 12 true = (false, true) := by decide

/-- C5 amended: after one successful upload, every further call of the
scheduler during the same bucket performs no upload; over any
non-decreasing minute sequence lying in a single bucket the scheduler
performs at most one upload, however many sampling cycles occur; and the
sent flag is reset exactly when an odd clock minute is observed (the
second half of a bucket), not as soon as the clock leaves the bucket. -/
theorem maybeUpload_bucket_discipline (b : Nat) (m : Nat) (ds ds' : Bool)
    (ms : List Nat)
    (hfire : maybeUpload m ds = (true, ds'))
    (hsort : List.Sorted (· ≤ ·) ms)
    (hbs : ∀ x ∈ ms, bucket x = b) :
    (∀ m', bucket m' = bucket m → (maybeUpload m' ds').1 = false)
    ∧ uploadRun ds ms ≤ 1
    ∧ (∀ n d, (maybeUpload n d).2 = false ↔ n % 2 = 1) := by
  have hds' : ds' = true := by
    have := maybeUpload_fire_sets m ds (by rw [hfire])
    rw [hfire] at this
    exact this
  refine ⟨?_, uploadRun_le_one b ms ds hsort hbs, ?_⟩
  · intro m' _
    subst hds'
    rcases Nat.even_or_odd m' with he | ho
    · rw [maybeUpload_even_sent m' (Nat.even_iff.mp he)]
    · rw [maybeUpload_odd m' true (Nat.odd_iff.mp ho)]
  · intro n d
    unfold maybeUpload
    split_ifs <;> simp_all

/-- C5 amended, instantiated: an upload fires at minute 10 from a clear
flag, and over the in-bucket minute trace 10, 10, 11 at most one upload
occurs. -/
theorem maybeUpload_bucket_discipline_inst :
    uploadRun false [10, 10, 11] ≤ 1 :=
  (maybeUpload_bucket_discipline 5 10 false true [10, 10, 11]
    (by decide) (by decide) (by decide)).2.1

/-- Five sampling cycles with a constant valid level (raw distance 100,
level 302, below every threshold), a connected temperature probe, and the
clock minute sequence 8, 9, 10, 10, 11. -/
def minuteScenarioInputs : List Input :=
  [⟨100, 0, 0, 8⟩, ⟨100, 0, 1000, 9⟩, ⟨100, 0, 2000, 10⟩,
   ⟨100, 0, 3000, 10⟩, ⟨100, 0, 4000, 11⟩]

/-- C6 counterexample: on the clock-minute sequence 8, 9, 10, 10, 11 with a
constant valid level the code performs two periodic uploads — one at
minute 8 (even, flag clear) and one at minute 10 after the odd minute 9
reset the flag — not exactly one upload at minute 10 as the claim states;
the code gates uploads on even minute-of-hour, there is no period-10
bucket. -/
theorem minuteScenario_two_uploads :
    (runOutputs initialState minuteScenarioInputs).map Output.uploads
      = [1, 0, 1, 0, 0]
    ∧ uploadTotal (runOutputs initialState minuteScenarioInputs) = 2
    ∧ (2 : Nat) ≠ 1 := by decide

/-- C6 amended: for the clock-minute sequence 8, 9, 10, 10, 11 with a
constant valid level, the even-minute scheduler performs exactly two
periodic uploads over the five cycles, at the minute-8 cycle and at the
first minute-10 cycle, and none elsewhere. -/
theorem minuteScenario_upload_trace :
    (runOutputs initialState minuteScenarioInputs).map Output.uploads
      = [1, 0, 1, 0, 0] := by decide

/-- Two sampling cycles of a station whose sensor is dead from boot: the
first invalid reading arrives at millis 500, a second invalid reading at
millis 1200000.  The degraded run starts at millis 500, so at the second
cycle its duration is 1199500 ms, still under `INTERVAL`. -/
def degradedScenarioInputs : List Input :=
  [⟨0, 0, 500, 1⟩, ⟨0, 0, 1200000, 1⟩]

/-- C8 counterexample: on the second cycle the reading is invalid and the
degraded duration — time since the first invalid reading at millis 500 —
is 1200000 - 500 < INTERVAL, yet the station dispatches the fault SMS and
halts, because line 387 measures elapsed time from `previousMillis` (the
last valid measurement, here still the initial 0), not from the start of
the degraded run.  So a cycle satisfying the claim's premise does produce
an SMS and an observable state change. -/
theorem loopStep_degraded_fault_early :
    (runOutputs initialState degradedScenarioInputs).map faultFired
      = [false, true]
    ∧ (runOutputs initialState degradedScenarioInputs).map Output.smss
      = [[], [(allowedNumbers.getD 0 "", createMessage 7)]]
    ∧ (runState initialState degradedScenarioInputs).halted = true
    ∧ validReading 0 0 = false
    ∧ (1200000 : Int) - 500 < INTERVAL := by decide

/-- C8 amended: on a cycle with an invalid reading, if fewer than
`INTERVAL` ms have elapsed since the last *valid* measurement
(`previousMillis`, initially 0) or the failure flag is not yet set — the
code's actual suspension window, which can expire before the degraded
duration since the first invalid reading reaches the interval — normal
decisions are suspended and nothing observable happens: the three warning
flags, the upload-schedule flag and `previousMillis` are unchanged (only
the failure flag is set), the threshold check contributes nothing, no SMS
is dispatched, and no upload is performed. -/
theorem loopStep_invalid_noop (s : State) (inp : Input)
    (hna : s.halted = false)
    (hv : validReading inp.raw inp.temp = false)
    (hguard : inp.currentMillis - s.previousMillis < INTERVAL
      ∨ s.messureFail = false) :
    (loopStep s inp).1.w1 = s.w1
    ∧ (loopStep s inp).1.w2 = s.w2
    ∧ (loopStep s inp).1.w3 = s.w3
    ∧ (loopStep s inp).1.dataSent = s.dataSent
    ∧ (loopStep s inp).1.previousMillis = s.previousMillis
    ∧ (loopStep s inp).1 = { s with messureFail := true }
    ∧ (loopStep s inp).2 = ⟨[], 0, 0, none, false⟩ := by
  have hfault : ¬(inp.currentMillis - s.previousMillis ≥ INTERVAL
      ∧ s.messureFail = true) := by
    rintro ⟨h1, h2⟩
    rcases hguard with h | h
    · omega
    · rw [h2] at h
      exact Bool.noConfusion h
  unfold loopStep
  simp [hna, hv, hfault]

/-- C8 amended, instantiated: from the initial state, an invalid reading
(raw 0) at millis 1000 changes no warning flag and produces no effect. -/
theorem loopStep_invalid_noop_inst :
    (loopStep initialState ⟨0, 0, 1000, 1⟩).1
      = { initialState with messureFail := true } :=
  (loopStep_invalid_noop initialState ⟨0, 0, 1000, 1⟩
    (by decide) (by decide) (by decide)).2.2.2.2.2.1

lemma checkWaterHeight_emitted_ne_seven (lvl : Int) (w1 w2 w3 : Bool) :
    (checkWaterHeight lvl w1 w2 w3).emitted ≠ some 7 := by
  unfold checkWaterHeight
  split_ifs <;> simp

lemma loopStep_faultFired_iff (s : State) (inp : Input) :
    faultFired (loopStep s inp).2 = true ↔
      s.halted = false ∧ validReading inp.raw inp.temp = false
        ∧ inp.currentMillis - s.previousMillis ≥ INTERVAL
        ∧ s.messureFail = true := by
  unfold loopStep
  split_ifs with h1 h2 h3 <;>
    simp_all [faultFired, checkWaterHeight_emitted_ne_seven]

lemma loopStep_fault_halts (s : State) (inp : Input)
    (h : faultFired (loopStep s inp).2 = true) :
    (loopStep s inp).1.halted = true := by
  rw [loopStep_faultFired_iff] at h
  obtain ⟨h1, h2, h3, h4⟩ := h
  unfold loopStep
  simp [h1, h2, h3, h4]

lemma faultCount_nil : faultCount [] = 0 := rfl

lemma faultCount_cons (o : Output) (outs : List Output) :
    faultCount (o :: outs) =
      (if faultFired o then 1 else 0) + faultCount outs := by
  unfold faultCount
  rcases h : faultFired o <;> simp [List.filter_cons, h, Nat.add_comm]

lemma runOutputs_halted_zero (inps : List Input) (s : State)
    (hs : s.halted = true) : faultCount (runOutputs s inps) = 0 := by
  induction inps generalizing s with
  | nil => rfl
  | cons inp rest ih =>
      have hstep : loopStep s inp = (s, ⟨[], 0, 0, none, true⟩) := by
        unfold loopStep
        simp [hs]
      rw [runOutputs, hstep, faultCount_cons]
      simp [faultFired]
      exact ih s hs

lemma faultCount_le_one (inps : List Input) (s : State) :
    faultCount (runOutputs s inps) ≤ 1 := by
  induction inps generalizing s with
  | nil => simp [runOutputs, faultCount_nil]
  | cons inp rest ih =>
      rw [runOutputs, faultCount_cons]
      rcases hf : faultFired (loopStep s inp).2 with _ | _
      · simpa using ih (loopStep s inp).1
      · have hh := loopStep_fault_halts s inp hf
        have hz := runOutputs_halted_zero rest (loopStep s inp).1 hh
        simp [hz]

/-- Three sampling cycles: a valid reading at millis 0, then a continuous
stream of invalid readings (raw distance 0) beginning at millis 1000000. -/
def faultScenarioInputs : List Input :=
  [⟨100, 0, 0, 1⟩, ⟨0, 0, 1000000, 1⟩, ⟨0, 0, 1200000, 1⟩]

/-- C2 counterexample: with invalid readings starting at t0 = 1000000 ms
after a valid reading at millis 0, the fault fires at the cycle with
millis 1200000 = lastValid + INTERVAL, not at t0 + INTERVAL = 2200000;
and after the first invalid reading the recorded timestamp
`previousMillis` is still 0 (the last valid measurement), not t0. -/
theorem faultScenario_counterexample :
    (runOutputs initialState faultScenarioInputs).map faultFired
      = [false, false, true]
    ∧ (faultScenarioInputs.getD 1 ⟨0, 0, 0, 0⟩).currentMillis = 1000000
    ∧ (faultScenarioInputs.getD 2 ⟨0, 0, 0, 0⟩).currentMillis = 1200000
    ∧ (1200000 : Int) ≠ 1000000 + INTERVAL
    ∧ (runState initialState (faultScenarioInputs.take 2)).previousMillis = 0
    ∧ (0 : Int) ≠ 1000000 := by decide

/-- C2 amended: the sensor-fault SMS (code 7) fires exactly when a cycle
reads invalid while the failure flag is already set and at least
`INTERVAL` ms have elapsed since the timestamp of the *last valid*
reading (`previousMillis`, initially 0) — not since the first invalid
reading, whose arrival only sets the failure flag; the firing cycle halts
the station, a halted station does nothing further, so every run contains
at most one fault escalation; each valid reading resets the failure flag
to not-failing and records its own time, and invalid cycles leave the
recorded timestamp unchanged. -/
theorem loopStep_fault_semantics (s : State) (inp : Input)
    (inps : List Input) :
    (s.halted = true → loopStep s inp = (s, ⟨[], 0, 0, none, true⟩))
    ∧ (faultFired (loopStep s inp).2 = true ↔
        s.halted = false ∧ validReading inp.raw inp.temp = false
          ∧ inp.currentMillis - s.previousMillis ≥ INTERVAL
          ∧ s.messureFail = true)
    ∧ (faultFired (loopStep s inp).2 = true →
        (loopStep s inp).1.halted = true)
    ∧ (s.halted = false → validReading inp.raw inp.temp = true →
        (loopStep s inp).1.messureFail = false
          ∧ (loopStep s inp).1.previousMillis = inp.currentMillis)
    ∧ (s.halted = false → validReading inp.raw inp.temp = false →
        (loopStep s inp).1.previousMillis = s.previousMillis
          ∧ (loopStep s inp).2.uploads = 0)
    ∧ faultCount (runOutputs s inps) ≤ 1 := by
  refine ⟨?_, loopStep_faultFired_iff s inp, loopStep_fault_halts s inp,
    ?_, ?_, faultCount_le_one inps s⟩
  · intro hs
    unfold loopStep
    simp [hs]
  · intro hna hv
    unfold loopStep
    simp [hna, hv]
  · intro hna hv
    unfold loopStep
    split_ifs with h1 h2 h3 <;> simp_all

/-- C2 amended, instantiated: an invalid cycle at millis 1200000 with the
failure flag set and last valid measurement at millis 0 fires the fault
escalation. -/
theorem loopStep_fault_semantics_inst :
    faultFired (loopStep { initialState with messureFail := true }
      ⟨0, 0, 1200000, 1⟩).2 = true :=
  (loopStep_fault_semantics { initialState with messureFail := true }
    ⟨0, 0, 1200000, 1⟩ []).2.1.mpr (by decide)

end WaterStation
